import Mathlib

/-!
Verification of the AIMO-2 solving pipeline (src/main.py, src/utils,
src/solvers) against its specification.

The Python sources are shallowly embedded:
  * Python `int` values become `Int`; Python `%` and `//` with a positive
    divisor coincide with Lean `Int.emod` (`%`) and `Int.ediv` (`/`); where a
    divisor may be negative the source is embedded with `Int.fmod` / `Int.fdiv`,
    which agree with Python `%` / `//` on all integers.
  * Python floats are modelled by their exact rational values (`ℚ`); the
    unconvertible values (NaN, infinities, non-numeric objects) appear as the
    `none` case of `PyNum`.
  * Python `range(a, b)` becomes `pyRange a b`.
  * raising an exception becomes the `Except.error` case; a `try/except`
    boundary becomes a `match` on the `Except` value.
  * attribute lookup on a solver object becomes a lookup in the list of method
    names that the class (with its base class) actually defines.
-/

/-- Kinds of Python exceptions distinguished by the embedding. -/
inductive PyErr where
  | attributeError
  | valueError
  | typeError
deriving DecidableEq

/-- A numeric Python value: `some q` is a number with exact rational value `q`;
`none` stands for a value on which `int(...)` raises (NaN, infinity, or a
non-numeric object). -/
abbrev PyNum := Option ℚ

/-- Python `range(a, b)` as a list of integers. -/
def pyRange (a b : Int) : List Int :=
  (List.range (b - a).toNat).map (fun (i : Nat) => a + (i : Int))

/-- Python `int(x)` on a (rational-valued) number: truncation toward zero.
For a rational in lowest terms `num/den` (`den > 0`) this is the
truncated division of the numerator by the denominator. -/
def py_int (q : ℚ) : Int := q.num.tdiv q.den

/-- Does the character list `needle` occur at the head of `hay`? -/
def strStarts : List Char → List Char → Bool
  | [], _ => true
  | _ :: _, [] => false
  | c :: cs, d :: ds => c == d && strStarts cs ds

/-- Does `needle` occur somewhere in `hay`? (helper for `strHas`). -/
def strHasAux (needle : List Char) : List Char → Bool
  | [] => needle.isEmpty
  | d :: t => strStarts needle (d :: t) || strHasAux needle t

/-- Python substring containment `needle in hay`. -/
def strHas (hay needle : String) : Bool := strHasAux needle.data hay.data

/-- Python `str.lower()` (character-wise; agrees with Python on the ASCII
text appearing in the keyword tables and the claims). -/
def pyLower (s : String) : String := String.mk (s.data.map Char.toLower)

/-- Embeds `extended_gcd` from `src/utils/math_helpers.py` (lines 108-114),
the recursive helper inside `mod_inverse`:
`if a == 0: return b, 0, 1` and otherwise
`gcd, x1, y1 = extended_gcd(b % a, a); return gcd, y1 - (b // a) * x1, x1`.
Python `%` / `//` are `Int.fmod` / `Int.fdiv`.  The recursion is run on
explicit fuel; since `|b % a| < |a|`, a fuel of `|a| + 1` always reaches the
`a = 0` base case before the fuel does, so the fuel clause (which returns the
same value as the base case) is never taken. -/
def ext_gcd : Nat → Int → Int → Int × Int × Int
  | 0, _, b => (b, 0, 1)
  | fuel + 1, a, b =>
    if a = 0 then (b, 0, 1)
    else
      let r := ext_gcd fuel (b.fmod a) a
      (r.1, r.2.2 - (b.fdiv a) * r.2.1, r.2.1)

/-- Embeds `mod_inverse(a, m)` from `src/utils/math_helpers.py` (lines 97-119):
runs the extended Euclidean algorithm and returns `None` when `gcd(a, m) != 1`,
otherwise `(x % m + m) % m`. -/
def mod_inverse (a m : Int) : Option Int :=
  let r := ext_gcd (a.natAbs + 1) a m
  if r.1 ≠ 1 then none else some ((r.2.1 % m + m) % m)

/-- The loop of `binomial_mod` from `src/utils/math_helpers.py` (lines 198-203):
`result = (result * (n - i)) % m`, then `inv = mod_inverse(i + 1, m)`;
`if inv is None: return 0`, else `result = (result * inv) % m`. -/
def binom_loop (n m : Int) : List Int → Int → Int
  | [], result => result
  | i :: rest, result =>
    let r1 := (result * (n - i)) % m
    match mod_inverse (i + 1) m with
    | none => 0
    | some inv => binom_loop n m rest ((r1 * inv) % m)

/-- Embeds `binomial_mod(n, k, m)` from `src/utils/math_helpers.py`
(lines 179-205): `if k > n: return 0`, `if k == 0 or k == n: return 1`,
`k = min(k, n - k)`, then the product-of-modular-inverses loop over
`range(k)`. -/
def binomial_mod (n k m : Int) : Int :=
  if k > n then 0
  else if k = 0 ∨ k = n then 1
  else binom_loop n m (pyRange 0 (min k (n - k))) 1

/-- Embeds `factorial_mod(n, m)` from `src/utils/math_helpers.py`
(lines 162-177): `result = 1; for i in range(1, min(n + 1, m + 1)):
result = (result * i) % m`. -/
def factorial_mod (n m : Int) : Int :=
  (pyRange 1 (min (n + 1) (m + 1))).foldl (fun result i => (result * i) % m) 1

/-- Models the Python builtin `pow(a, -1, m)` (used by
`CombinatoricsSolver._combination`): raises `ValueError` when `a` is not
invertible modulo `m`, otherwise returns the inverse reduced into `[0, m)`,
computed by the extended Euclidean algorithm. -/
def pow_inv_mod (a m : Int) : Except PyErr Int :=
  if Int.gcd a m ≠ 1 then .error .valueError
  else
    let r := ext_gcd (a.natAbs + 1) a m
    .ok ((r.2.1 % m + m) % m)

/-- The loop of `CombinatoricsSolver._combination` from
`src/solvers/combinatorics_solver.py` (lines 96-100):
`result = (result * (n - i)) % 1000; result = (result * pow(i + 1, -1, 1000)) % 1000`,
where `pow(i + 1, -1, 1000)` can raise `ValueError`. -/
def comb_loop (n : Int) : List Int → Int → Except PyErr Int
  | [], result => .ok result
  | i :: rest, result => do
    let r1 := (result * (n - i)) % 1000
    let pw ← pow_inv_mod (i + 1) 1000
    comb_loop n rest ((r1 * pw) % 1000)

/-- Embeds `CombinatoricsSolver._combination(n, r)` from
`src/solvers/combinatorics_solver.py` (lines 90-100): `if r > n: return 0`,
`r = min(r, n - r)`, then the loop over `range(r)`. -/
def comb_combination (n r : Int) : Except PyErr Int :=
  if r > n then .ok 0
  else comb_loop n (pyRange 0 (min r (n - r))) 1

/-- Embeds `CombinatoricsSolver._permutation(n, r)` from
`src/solvers/combinatorics_solver.py` (lines 78-88): `if r is None: r = n`,
`if r > n: return 0`, then `result = (result * i) % 1000` over
`range(n - r + 1, n + 1)`. -/
def comb_permutation (n : Int) (rOpt : Option Int) : Int :=
  let r := match rOpt with | none => n | some x => x
  if r > n then 0
  else (pyRange (n - r + 1) (n + 1)).foldl (fun result i => (result * i) % 1000) 1

/-- Embeds `mod_1000(value)` from `src/utils/__init__.py` (lines 35-49):
`result = int(value) % 1000; return result if result >= 0 else result + 1000`,
with the bare `except` returning 0 when `int(value)` raises (the `none` case
of `PyNum`). -/
def mod_1000 (value : PyNum) : Int :=
  match value with
  | none => 0
  | some q =>
    let result := py_int q % 1000
    if result ≥ 0 then result else result + 1000

/-- Embeds `BaseSolver._ensure_valid_answer(result)` from
`src/solvers/base_solver.py` (lines 168-179): `if result is None: return 0`,
`answer = int(float(result)) % 1000; return answer if answer >= 0 else
answer + 1000`, with the `except` branch returning 0 when the conversion
raises.  The outer `Option` is Python `None`; the inner `PyNum` is the
numeric value (`float(result)` is the identity on the modelled values, whose
rational value is the exact value of the float). -/
def ensure_valid_answer (result : Option PyNum) : Int :=
  match result with
  | none => 0
  | some none => 0
  | some (some q) =>
    let answer := py_int q % 1000
    if answer ≥ 0 then answer else answer + 1000

/-- The normalization formula as the specification words it:
`((floor(r) % 1000) + 1000) % 1000`.  Written from the spec, not from the
source, to be compared against `mod_1000`. -/
def spec_floor_normalization (q : ℚ) : Int := (q.floor % 1000 + 1000) % 1000

/-- Embeds the `type_indicators` table of `AIMOSolver._identify_problem_type`
from `src/main.py` (lines 70-91), in dict insertion order. -/
def typeIndicators : List (String × List String) :=
  [("geometry",
    ["triangle", "circle", "angle", "perpendicular", "parallel",
     "distance", "area", "point"]),
   ("number_theory",
    ["divisible", "prime", "factor", "modulo", "remainder",
     "multiple", "gcd", "lcm"]),
   ("sequence",
    ["sequence", "series", "fibonacci", "term", "arithmetic",
     "geometric", "progression"]),
   ("combinatorics",
    ["ways", "arrange", "permutation", "combination",
     "possibility", "different"]),
   ("arithmetic",
    ["sum", "product", "mean", "average", "total",
     "ratio", "proportion"])]

/-- The per-category score of `AIMOSolver._identify_problem_type`
(`src/main.py` lines 97-101): for each indicator,
`if indicator in text_lower: type_scores[ptype] += 1`. -/
def countIndicators (textLower : String) (indicators : List String) : Nat :=
  indicators.foldl (fun score ind => if strHas textLower ind then score + 1 else score) 0

/-- Embeds `AIMOSolver._identify_problem_type` from `src/main.py`
(lines 56-111): score each category, take `max_score = max(type_scores.values())`;
if it is positive return the first category (in dict insertion order) whose
score equals it, else return `pattern`.  (Folding `max` from 0 equals the
Python `max` over the five values because the scores are nonnegative.
The `expressions` parameter of the
Python method is never used by its body and is omitted.) -/
def identify_problem_type (problem_text : String) : String :=
  let textLower := pyLower problem_text
  let typeScores := typeIndicators.map (fun p => (p.1, countIndicators textLower p.2))
  let maxScore := typeScores.foldl (fun m p => max m p.2) 0
  if maxScore > 0 then
    match typeScores.find? (fun p => p.2 == maxScore) with
    | some p => p.1
    | none => "pattern"
  else "pattern"

/-- The classifier as the amended claim words it: count, per category, the
keywords present in the lower-cased text; return `pattern` exactly when the
maximum count is 0; otherwise return the first category in the fixed order
geometry, number_theory, sequence, combinatorics, arithmetic whose count
attains the maximum.  Written from the amended claim, to be compared with
`identify_problem_type`. -/
def spec_classifier_amended (t : String) : String :=
  let sG := countIndicators (pyLower t)
    ["triangle", "circle", "angle", "perpendicular", "parallel",
     "distance", "area", "point"]
  let sN := countIndicators (pyLower t)
    ["divisible", "prime", "factor", "modulo", "remainder",
     "multiple", "gcd", "lcm"]
  let sS := countIndicators (pyLower t)
    ["sequence", "series", "fibonacci", "term", "arithmetic",
     "geometric", "progression"]
  let sC := countIndicators (pyLower t)
    ["ways", "arrange", "permutation", "combination",
     "possibility", "different"]
  let sA := countIndicators (pyLower t)
    ["sum", "product", "mean", "average", "total",
     "ratio", "proportion"]
  let best := max sG (max sN (max sS (max sC sA)))
  if best = 0 then "pattern"
  else if sG = best then "geometry"
  else if sN = best then "number_theory"
  else if sS = best then "sequence"
  else if sC = best then "combinatorics"
  else "arithmetic"

/-- The behaviour of the collaborators of `AIMOSolver.solve_problem`
(`src/main.py` lines 113-155), left abstract: the outcome of `parse_latex`
(which can raise) and, for each solver name, the outcome of
`self.solvers[name].solve(text)` (which can raise, return `None`, or return a
numeric value).  The theorems about `solve_problem` are proved for every such
environment, so they hold regardless of what the six solvers do. -/
structure SolverEnv where
  parseResult : String → Except PyErr Unit
  solverSolve : String → String → Except PyErr (Option PyNum)

/-- The `self.stats` dictionary of `AIMOSolver` (`src/main.py` lines 48-52). -/
structure SolverStats where
  problems_processed : Int
  solver_usage : String → Int
  successful_solves : Int

/-- The update `self.stats[slot][name] += 1` for the solver-usage counters. -/
def bumpUsage (s : SolverStats) (name : String) : SolverStats :=
  { s with solver_usage := fun k => if k = name then s.solver_usage k + 1 else s.solver_usage k }

/-- Embeds `AIMOSolver.solve_problem` from `src/main.py` (lines 113-155):
increment the processed counter, parse, classify, run the selected solver;
a non-`None` result is returned through `mod_1000` (counting a successful
solve); a `None` result falls back to the pattern solver (again through
`mod_1000`) unless the selected solver already was `pattern`; any exception
inside the `try` block yields 42. -/
def solve_problem (env : SolverEnv) (stats : SolverStats) (text : String) :
    Int × SolverStats :=
  let stats1 : SolverStats :=
    { stats with problems_processed := stats.problems_processed + 1 }
  match env.parseResult text with
  | .error _ => (42, stats1)
  | .ok _ =>
    let ptype := identify_problem_type text
    let stats2 := bumpUsage stats1 ptype
    match env.solverSolve ptype text with
    | .error _ => (42, stats2)
    | .ok (some v) =>
      (mod_1000 v, { stats2 with successful_solves := stats2.successful_solves + 1 })
    | .ok none =>
      if ptype ≠ "pattern" then
        match env.solverSolve "pattern" text with
        | .error _ => (42, stats2)
        | .ok (some v) => (mod_1000 v, stats2)
        | .ok none => (42, stats2)
      else (42, stats2)

/-- The method names defined by `class BaseSolver` in
`src/solvers/base_solver.py` (the attributes its instances provide). -/
def baseSolverMethods : List String :=
  ["__init__", "solve", "initialize", "_setup_resources", "preprocess",
   "_clean_text", "_extract_math_expressions", "_extract_numbers",
   "_extract_latex_commands", "_identify_problem_type", "_ensure_valid_answer",
   "__str__"]

/-- The method names defined by `class GeometrySolver` in
`src/solvers/geometry_solver.py` (its own `def`s, lines 39-350), together with
the inherited `BaseSolver` methods.  Note that no `_handle_triangle`,
`_handle_circle`, `_handle_angle`, `_handle_distance`, `_handle_perpendicular`,
`_handle_parallel`, `_calculate_perimeter`, `_calculate_angle`,
`_calculate_distance`, `_calculate_ratio`, `_create_circle_element` or
`_solve_general_geometry` is defined anywhere in the file. -/
def geometrySolverMethods : List String :=
  ["__init__", "_initialize_geometry_patterns", "solve",
   "_parse_geometric_problem", "_create_geometric_element",
   "_extract_geometric_constraints", "_identify_target_property",
   "_solve_geometric_problem", "_calculate_area", "_calculate_triangle_area",
   "_get_triangle_sides", "_get_triangle_angles", "_apply_geometric_heuristics",
   "__str__"] ++ baseSolverMethods

/-- Python attribute lookup `self.<name>` on a `GeometrySolver` instance:
succeeds exactly when the class (or its base class) defines the method,
raising `AttributeError` otherwise. -/
def geoAttr (name : String) : Except PyErr String :=
  if geometrySolverMethods.contains name then .ok name else .error .attributeError

/-- Embeds `GeometrySolver._initialize_geometry_patterns` from
`src/solvers/geometry_solver.py` (lines 43-79), run by `__init__`: it builds
`self.geometry_patterns` (each entry holding a regex pattern string and the
handler looked up as `self._handle_*`) and `self.property_handlers` (each
value looked up as `self._calculate_*`).  Every attribute lookup is performed
when the dictionaries are constructed, so the first missing handler aborts
construction. -/
def initialize_geometry_patterns :
    Except PyErr (List (String × String × String) × List (String × String)) := do
  let hTri ← geoAttr "_handle_triangle"
  let hCir ← geoAttr "_handle_circle"
  let hAng ← geoAttr "_handle_angle"
  let hDis ← geoAttr "_handle_distance"
  let hPer ← geoAttr "_handle_perpendicular"
  let hPar ← geoAttr "_handle_parallel"
  let pArea ← geoAttr "_calculate_area"
  let pPeri ← geoAttr "_calculate_perimeter"
  let pAng ← geoAttr "_calculate_angle"
  let pDis ← geoAttr "_calculate_distance"
  let pRat ← geoAttr "_calculate_ratio"
  pure ([("triangle", "triangle\\s+(?:\\\\triangle\\s+)?([A-Z]\x7b3\x7d)", hTri),
         ("circle", "circle|circumcircle|incircle", hCir),
         ("angle", "\\\\angle\\s+([A-Z]\x7b3\x7d)\\s*=\\s*(\\d+)", hAng),
         ("distance", "([A-Z]\x7b2\x7d)\\s*=\\s*(\\d+)", hDis),
         ("perpendicular", "perpendicular|⊥", hPer),
         ("parallel", "parallel|\\|\\|", hPar)],
        [("area", pArea), ("perimeter", pPeri), ("angle", pAng),
         ("distance", pDis), ("ratio", pRat)])

/-- Embeds `GeometrySolver.__init__` (`src/solvers/geometry_solver.py`
lines 39-41): after `BaseSolver.__init__` (which cannot raise) it runs
`self._initialize_geometry_patterns()`. -/
def geometry_solver_init :
    Except PyErr (List (String × String × String) × List (String × String)) :=
  initialize_geometry_patterns

theorem mod_1000_bounds (v : PyNum) : 0 ≤ mod_1000 v ∧ mod_1000 v ≤ 999 := by
  cases v with
  | none => simp [mod_1000]
  | some q =>
    have h0 : (0 : Int) ≤ py_int q % 1000 := Int.emod_nonneg _ (by norm_num)
    have h1 : py_int q % 1000 < 1000 := Int.emod_lt_of_pos _ (by norm_num)
    simp only [mod_1000]
    rw [if_pos h0]
    omega

theorem pyRange_cons (a b : Int) (h : a < b) : pyRange a b = a :: pyRange (a + 1) b := by
  unfold pyRange
  have h1 : (b - a).toNat = (b - (a + 1)).toNat + 1 := by omega
  rw [h1, List.range_succ_eq_map, List.map_cons, List.map_map]
  congr 1
  · simp
  · apply List.map_congr_left
    intro i _
    simp only [Function.comp_apply]
    push_cast
    ring

theorem pyRange_snoc (a b : Int) (h : a ≤ b) : pyRange a (b + 1) = pyRange a b ++ [b] := by
  unfold pyRange
  have h1 : (b + 1 - a).toNat = (b - a).toNat + 1 := by omega
  rw [h1, List.range_succ, List.map_append, List.map_cons, List.map_nil]
  have h2 : a + (((b - a).toNat : Nat) : Int) = b := by omega
  rw [h2]

theorem mod_inverse_one_1000 : mod_inverse 1 1000 = some 1 := rfl

theorem mod_inverse_two_1000 : mod_inverse 2 1000 = none := rfl

theorem binom_loop_zero_one (n : Int) (rest : List Int) :
    binom_loop n 1000 (0 :: 1 :: rest) 1 = 0 := rfl

/-- C1: for every input text (and every behaviour of the parser and of the six
solvers, including raising and returning malformed values), the dispatcher
operation `solve_problem` returns an integer in [0, 999] and never raises:
solver results pass through `mod_1000` and every exception inside the `try`
block becomes 42. -/
theorem solve_problem_returns_bounded_int (env : SolverEnv) (stats : SolverStats)
    (text : String) :
    0 ≤ (solve_problem env stats text).1 ∧ (solve_problem env stats text).1 ≤ 999 := by
  unfold solve_problem
  dsimp only
  rcases env.parseResult text with e | u
  · exact ⟨by norm_num, by norm_num⟩
  · dsimp only
    rcases env.solverSolve (identify_problem_type text) text with e | r
    · exact ⟨by norm_num, by norm_num⟩
    · rcases r with _ | v
      · dsimp only
        by_cases hp : identify_problem_type text ≠ "pattern"
        · rw [if_pos hp]
          rcases env.solverSolve "pattern" text with e | r2
          · exact ⟨by norm_num, by norm_num⟩
          · rcases r2 with _ | v2
            · exact ⟨by norm_num, by norm_num⟩
            · exact mod_1000_bounds v2
        · rw [if_neg hp]
          exact ⟨by norm_num, by norm_num⟩
      · exact mod_1000_bounds v

theorem solve_problem_fst_stats (env : SolverEnv) (s1 s2 : SolverStats)
    (text : String) :
    (solve_problem env s1 text).1 = (solve_problem env s2 text).1 := by
  unfold solve_problem
  dsimp only
  rcases env.parseResult text with e | u
  · rfl
  · dsimp only
    rcases env.solverSolve (identify_problem_type text) text with e | r
    · rfl
    · rcases r with _ | v
      · dsimp only
        by_cases hp : identify_problem_type text ≠ "pattern"
        · rw [if_pos hp, if_pos hp]
          rcases env.solverSolve "pattern" text with e | r2
          · rfl
          · rcases r2 with _ | v2 <;> rfl
        · rw [if_neg hp, if_neg hp]
      · rfl

/-- C9: calling `solve_problem` twice with identical text yields identical
output: the returned integer is a function of the text and the solver
behaviour alone, and the mutation of the usage counters between the calls does
not change the second result.  (The memoization caches of the solvers memoize
pure functions, so the solver outcomes in `SolverEnv` depend only on the text.) -/
theorem solve_problem_idempotent (env : SolverEnv) (stats : SolverStats)
    (text : String) :
    (solve_problem env ((solve_problem env stats text).2) text).1 =
      (solve_problem env stats text).1 :=
  solve_problem_fst_stats env _ stats text

/-- C4 counterexample: at r = -3/2 the code returns 999 (truncation toward
zero), while the formula of the claim, `((floor(r) % 1000) + 1000) % 1000`,
gives 998. -/
theorem mod_1000_floor_counterexample :
    mod_1000 (some (mkRat (-3) 2)) ≠ spec_floor_normalization (mkRat (-3) 2) ∧
    mod_1000 (some (mkRat (-3) 2)) = 999 ∧
    spec_floor_normalization (mkRat (-3) 2) = 998 := by
  refine ⟨?_, ?_, ?_⟩ <;> decide

/-- C4 as amended: the normalization step (`mod_1000`, and the solvers answer
validation `_ensure_valid_answer`) returns `((trunc(r) % 1000) + 1000) % 1000`
where trunc rounds toward zero (so it agrees with the claimed floor formula
for every nonnegative r, but not for negative non-integer r), and the returned
value is always in [0, 999]. -/
theorem mod_1000_truncation_spec :
    (∀ q : ℚ, mod_1000 (some q) = (py_int q % 1000 + 1000) % 1000 ∧
      ensure_valid_answer (some (some q)) = (py_int q % 1000 + 1000) % 1000) ∧
    (∀ q : ℚ, 0 ≤ q.num → mod_1000 (some q) = spec_floor_normalization q) ∧
    (∀ v : PyNum, 0 ≤ mod_1000 v ∧ mod_1000 v ≤ 999) := by
  have key : ∀ q : ℚ, mod_1000 (some q) = (py_int q % 1000 + 1000) % 1000 := by
    intro q
    have h0 : (0 : Int) ≤ py_int q % 1000 := Int.emod_nonneg _ (by norm_num)
    have h1 : py_int q % 1000 < 1000 := Int.emod_lt_of_pos _ (by norm_num)
    simp only [mod_1000]
    rw [if_pos h0]
    omega
  refine ⟨fun q => ⟨key q, ?_⟩, fun q hq => ?_, mod_1000_bounds⟩
  · have h0 : (0 : Int) ≤ py_int q % 1000 := Int.emod_nonneg _ (by norm_num)
    have h1 : py_int q % 1000 < 1000 := Int.emod_lt_of_pos _ (by norm_num)
    simp only [ensure_valid_answer]
    rw [if_pos h0]
    omega
  · have hfloor : py_int q = q.floor := by
      rw [py_int, Rat.floor_def']
      exact Int.tdiv_eq_ediv hq (by exact_mod_cast q.den.zero_le)
    rw [key q, spec_floor_normalization, hfloor]

/-- Witness for the hypothesis of `mod_1000_truncation_spec`: at the
nonnegative rational 7/2 the code agrees with the claimed floor formula. -/
theorem mod_1000_truncation_spec_witness :
    0 ≤ (mkRat 7 2).num ∧
    mod_1000 (some (mkRat 7 2)) = spec_floor_normalization (mkRat 7 2) :=
  ⟨by decide, mod_1000_truncation_spec.2.1 (mkRat 7 2) (by decide)⟩

/-- C6: when the number of selected elements exceeds the total, the
combinatorial handlers return 0 instead of raising: `binomial_mod(n, r, m)`,
the combinatorics solver `_combination(n, r)` (which returns without touching
the possibly-raising modular inversion) and `_permutation(n, r)`. -/
theorem oversubscribed_selection_returns_zero (n r m : Int)
    (hn : 0 ≤ n) (hr : 0 ≤ r) (h : r > n) :
    binomial_mod n r m = 0 ∧ comb_combination n r = .ok 0 ∧
    comb_permutation n (some r) = 0 := by
  refine ⟨?_, ?_, ?_⟩
  · unfold binomial_mod
    rw [if_pos h]
  · unfold comb_combination
    rw [if_pos h]
  · unfold comb_permutation
    simp only []
    rw [if_pos h]

/-- Witness for `oversubscribed_selection_returns_zero` at n = 3, r = 5. -/
theorem oversubscribed_selection_returns_zero_witness :
    (0 : Int) ≤ 3 ∧ (0 : Int) ≤ 5 ∧ (5 : Int) > 3 ∧
    (binomial_mod 3 5 1000 = 0 ∧ comb_combination 3 5 = .ok 0 ∧
     comb_permutation 3 (some 5) = 0) :=
  ⟨by decide, by decide, by decide,
   oversubscribed_selection_returns_zero 3 5 1000 (by decide) (by decide) (by decide)⟩

/-- C7: for 0 ≤ r ≤ n both implemented combination operations are symmetric,
`C(n, r) = C(n, n-r)`, because both reduce r to `min(r, n-r)` before
computing: `binomial_mod` as integer results, `_combination` as identical
outcomes (value or raised `ValueError`). -/
theorem combination_symmetry (n r : Int) (h0 : 0 ≤ r) (h1 : r ≤ n) :
    binomial_mod n r 1000 = binomial_mod n (n - r) 1000 ∧
    comb_combination n r = comb_combination n (n - r) := by
  have hmin : min (n - r) (n - (n - r)) = min r (n - r) := by
    rw [show n - (n - r) = r by ring, min_comm]
  constructor
  · unfold binomial_mod
    rw [if_neg (show ¬(r > n) by omega), if_neg (show ¬(n - r > n) by omega)]
    by_cases h2 : r = 0 ∨ r = n
    · have h3 : n - r = 0 ∨ n - r = n := by omega
      rw [if_pos h2, if_pos h3]
    · have h3 : ¬(n - r = 0 ∨ n - r = n) := by omega
      rw [if_neg h2, if_neg h3, hmin]
  · unfold comb_combination
    rw [if_neg (show ¬(r > n) by omega), if_neg (show ¬(n - r > n) by omega), hmin]

/-- Witness for `combination_symmetry` at n = 5, r = 2. -/
theorem combination_symmetry_witness :
    (0 : Int) ≤ 2 ∧ (2 : Int) ≤ 5 ∧
    (binomial_mod 5 2 1000 = binomial_mod 5 (5 - 2) 1000 ∧
     comb_combination 5 2 = comb_combination 5 (5 - 2)) :=
  ⟨by decide, by decide, combination_symmetry 5 2 (by decide) (by decide)⟩

/-- C10: whenever 0 ≤ k ≤ n and `min(k, n-k) ≥ 2`, the loop of
`binomial_mod(n, k, 1000)` reaches the factor i+1 = 2, which has no inverse
modulo 1000; `mod_inverse` returns `None` and the function returns 0,
regardless of the true value of C(n, k) mod 1000. -/
theorem binomial_mod_vanishes_on_noninvertible (n k : Int) (h0 : 0 ≤ k)
    (h1 : k ≤ n) (h2 : 2 ≤ min k (n - k)) : binomial_mod n k 1000 = 0 := by
  have ha : min k (n - k) ≤ k := min_le_left _ _
  have hb : min k (n - k) ≤ n - k := min_le_right _ _
  unfold binomial_mod
  rw [if_neg (show ¬(k > n) by omega), if_neg (show ¬(k = 0 ∨ k = n) by omega)]
  rw [pyRange_cons 0 (min k (n - k)) (by omega)]
  rw [show (0 : Int) + 1 = 1 by norm_num]
  rw [pyRange_cons 1 (min k (n - k)) (by omega)]
  exact binom_loop_zero_one n _

/-- Witness for `binomial_mod_vanishes_on_noninvertible` at n = 5, k = 2
(the true C(5, 2) = 10, yet the code returns 0). -/
theorem binomial_mod_vanishes_on_noninvertible_witness :
    (0 : Int) ≤ 2 ∧ (2 : Int) ≤ 5 ∧ 2 ≤ min (2 : Int) (5 - 2) ∧
    binomial_mod 5 2 1000 = 0 :=
  ⟨by decide, by decide, by decide,
   binomial_mod_vanishes_on_noninvertible 5 2 (by decide) (by decide) (by decide)⟩

theorem factorial_mod_step (n : Int) (h1 : 1 ≤ n) (h2 : n ≤ 1000) :
    factorial_mod n 1000 = (factorial_mod (n - 1) 1000 * n) % 1000 := by
  unfold factorial_mod
  rw [show min (n + 1) ((1000 : Int) + 1) = n + 1 by omega]
  rw [show min ((n - 1) + 1) ((1000 : Int) + 1) = n by omega]
  rw [pyRange_snoc 1 n h1, List.foldl_append]
  simp [List.foldl]

theorem factorial_mod_zero_from_15 (j : Nat) :
    15 + (j : Int) ≤ 1000 → factorial_mod (15 + (j : Int)) 1000 = 0 := by
  induction j with
  | zero =>
    intro _
    decide
  | succ k ih =>
    intro h
    have hc : ((k + 1 : Nat) : Int) = (k : Int) + 1 := by push_cast; ring
    rw [hc, show (15 : Int) + ((k : Int) + 1) = (15 + (k : Int)) + 1 by ring]
    rw [factorial_mod_step ((15 + (k : Int)) + 1) (by omega) (by push_cast at h ⊢; omega)]
    rw [show (15 + (k : Int)) + 1 - 1 = 15 + (k : Int) by ring]
    rw [ih (by push_cast at h ⊢; omega)]
    simp

theorem factorial_mod_1000_1000 : factorial_mod 1000 1000 = 0 := by
  have h := factorial_mod_zero_from_15 985 (by norm_num)
  norm_num at h
  exact h

/-- C8: `factorial_mod` satisfies the factorial recurrence at modulus 1000 for
every n ≥ 1 — including past the loop truncation bound `min(n+1, m+1)`, where
both sides are 0 because 1000! ≡ 0 (mod 1000) — and `factorial_mod(0) = 1`. -/
theorem factorial_mod_recurrence :
    (∀ n : Int, 1 ≤ n →
      factorial_mod n 1000 = (factorial_mod (n - 1) 1000 * n) % 1000) ∧
    factorial_mod 0 1000 = 1 := by
  constructor
  · intro n h1
    by_cases h2 : n ≤ 1000
    · exact factorial_mod_step n h1 h2
    · have hn : factorial_mod n 1000 = factorial_mod 1000 1000 := by
        unfold factorial_mod
        rw [show min (n + 1) ((1000 : Int) + 1) = min ((1000 : Int) + 1) (1000 + 1) by omega]
      have hn1 : factorial_mod (n - 1) 1000 = factorial_mod 1000 1000 := by
        unfold factorial_mod
        rw [show min ((n - 1) + 1) ((1000 : Int) + 1) = min ((1000 : Int) + 1) (1000 + 1) by omega]
      rw [hn, hn1, factorial_mod_1000_1000]
      simp
  · decide

/-- Witness for `factorial_mod_recurrence` at n = 5. -/
theorem factorial_mod_recurrence_witness :
    (1 : Int) ≤ 5 ∧
    factorial_mod 5 1000 = (factorial_mod (5 - 1) 1000 * 5) % 1000 :=
  ⟨by decide, factorial_mod_recurrence.1 5 (by decide)⟩

/-- C3 counterexample: on the input "point prime" the geometry and
number_theory categories tie at the maximum score 1 (all other categories
score 0), yet the classifier returns "geometry" — the first category in dict
insertion order — and not "pattern" as the claim requires for a tie. -/
theorem classifier_tie_counterexample :
    identify_problem_type "point prime" = "geometry" ∧
    identify_problem_type "point prime" ≠ "pattern" ∧
    countIndicators (pyLower "point prime")
      ["triangle", "circle", "angle", "perpendicular", "parallel",
       "distance", "area", "point"] = 1 ∧
    countIndicators (pyLower "point prime")
      ["divisible", "prime", "factor", "modulo", "remainder",
       "multiple", "gcd", "lcm"] = 1 ∧
    countIndicators (pyLower "point prime")
      ["sequence", "series", "fibonacci", "term", "arithmetic",
       "geometric", "progression"] = 0 ∧
    countIndicators (pyLower "point prime")
      ["ways", "arrange", "permutation", "combination",
       "possibility", "different"] = 0 ∧
    countIndicators (pyLower "point prime")
      ["sum", "product", "mean", "average", "total",
       "ratio", "proportion"] = 0 := by
  refine ⟨?_, ?_, ?_, ?_, ?_, ?_, ?_⟩ <;> decide

/-- C3 as amended: the classifier counts, per category, the keywords present
as case-insensitive substrings (each keyword once); it returns "pattern"
exactly when the maximum count is 0, and otherwise the first category in the
fixed order geometry, number_theory, sequence, combinatorics, arithmetic whose
count attains the maximum — so a tie resolves to the earliest tied category,
not to "pattern". -/
theorem identify_problem_type_first_max_spec (t : String) :
    identify_problem_type t = spec_classifier_amended t := by
  unfold identify_problem_type spec_classifier_amended
  dsimp only [typeIndicators, List.map_cons, List.map_nil, List.foldl_cons,
    List.foldl_nil]
  set sG := countIndicators (pyLower t)
    ["triangle", "circle", "angle", "perpendicular", "parallel",
     "distance", "area", "point"] with hsG
  set sN := countIndicators (pyLower t)
    ["divisible", "prime", "factor", "modulo", "remainder",
     "multiple", "gcd", "lcm"] with hsN
  set sS := countIndicators (pyLower t)
    ["sequence", "series", "fibonacci", "term", "arithmetic",
     "geometric", "progression"] with hsS
  set sC := countIndicators (pyLower t)
    ["ways", "arrange", "permutation", "combination",
     "possibility", "different"] with hsC
  set sA := countIndicators (pyLower t)
    ["sum", "product", "mean", "average", "total",
     "ratio", "proportion"] with hsA
  have hM : max (max (max (max (max 0 sG) sN) sS) sC) sA =
      max sG (max sN (max sS (max sC sA))) := by omega
  rw [hM]
  set M := max sG (max sN (max sS (max sC sA))) with hMdef
  by_cases hz : M = 0
  · rw [if_neg (by omega), if_pos hz]
  · rw [if_pos (by omega), if_neg hz]
    by_cases h1 : sG = M
    · rw [List.find?_cons_of_pos _ (by simp [h1]), if_pos h1]
    · rw [List.find?_cons_of_neg _ (by simp [h1]), if_neg h1]
      by_cases h2 : sN = M
      · rw [List.find?_cons_of_pos _ (by simp [h2]), if_pos h2]
      · rw [List.find?_cons_of_neg _ (by simp [h2]), if_neg h2]
        by_cases h3 : sS = M
        · rw [List.find?_cons_of_pos _ (by simp [h3]), if_pos h3]
        · rw [List.find?_cons_of_neg _ (by simp [h3]), if_neg h3]
          by_cases h4 : sC = M
          · rw [List.find?_cons_of_pos _ (by simp [h4]), if_pos h4]
          · rw [List.find?_cons_of_neg _ (by simp [h4]), if_neg h4]
            have h5 : sA = M := by omega
            rw [List.find?_cons_of_pos _ (by simp [h5])]

/-- C2 (code bug): constructing the geometry Domain Solver already raises:
`_initialize_geometry_patterns`, run by `__init__`, looks up
`self._handle_triangle`, which `GeometrySolver` does not define anywhere, so
the attribute lookup raises `AttributeError` before any `solve` call can be
made, contradicting the claim (and the tests of the repository, which
instantiate the solver and assert that `solve` returns an integer). -/
theorem geometry_solver_construction_raises :
    geometry_solver_init = .error .attributeError ∧
    geoAttr "_handle_triangle" = .error .attributeError := ⟨rfl, rfl⟩

/-- C5 (code bug): the 3-4-5 triangle scenario classifies to the geometry
solver, but constructing that solver raises `AttributeError` (missing
`_handle_*` methods), so the pipeline cannot return 6 for this input. -/
theorem triangle_345_pipeline_fails :
    identify_problem_type
        "Triangle ABC has sides of length 3, 4, and 5. Find its area." =
      "geometry" ∧
    geometry_solver_init = .error .attributeError := ⟨by decide, rfl⟩
